import Mathlib

/-
Shallow embedding of src/tools/TestClassGenerator.py (a Python 2.7 script).

The script generates a Java class file: it parses `-h`, `-n <class_name>`
(or `--cname=`) and `-s <object_size>` (or `--osize=`) with Python's
`getopt.getopt`, computes `fields_count = object_size / 8` (Python 2 floor
division on ints), opens `<class_name>.java` with mode `w+` (create or
truncate), writes the `header` template with `####` replaced by the class
name on each line that contains it, writes `fields_count` passes over the
`field` template keeping only the lines that contain `field###` (with every
`###` replaced by the index), writes the `footer` template verbatim, and
closes the file.

Strings are modelled as Lean `String` (lists of characters); the template
files are modelled as their content (a list of lines for the two
line-iterated templates, a single string for the footer, which is read
whole); the side effects of `run` are modelled as a trace of events.
-/

namespace TCG

/-- Python `pat in s` (substring containment) over character lists. -/
def occursIn (pat : List Char) : List Char → Bool
  | [] => pat.isEmpty
  | c :: t => pat.isPrefixOf (c :: t) || occursIn pat t

/-- Python `pat in s` on strings: does `s` contain `pat` as a substring. -/
def strContains (s pat : String) : Bool :=
  occursIn pat.data s.data

/-- Worker for `pyReplace`: left-to-right, non-overlapping replacement of a
nonempty pattern, exactly as Python `str.replace` performs it.  The fuel
argument starts at the length of the scanned list and every step consumes at
least one character and one unit of fuel, so the fuel never runs out. -/
def replaceGo (pat rep : List Char) : Nat → List Char → List Char
  | _, [] => []
  | 0, s => s
  | fuel + 1, c :: t =>
    if pat ≠ [] ∧ pat.isPrefixOf (c :: t) then
      rep ++ replaceGo pat rep fuel ((c :: t).drop pat.length)
    else
      c :: replaceGo pat rep fuel t

/-- Python `s.replace(pat, rep)` for a nonempty `pat` (the script only uses
the patterns `"####"` and `"###"`): replace every non-overlapping occurrence
of `pat` in `s` by `rep`, scanning left to right. -/
def pyReplace (s pat rep : String) : String :=
  ⟨replaceGo pat.data rep.data s.data.length s.data⟩

/-- Python 2 ASCII whitespace accepted by `int()`. -/
def isPySpace (c : Char) : Bool :=
  c = ' ' || c = '\t' || c = '\n' || c = '\r' || c = '\x0b' || c = '\x0c'

/-- Decimal digit run to a natural number; `none` when empty or when some
character is not a digit. -/
def digitsToNat (ds : List Char) : Option Nat :=
  if ds = [] then none
  else if ds.all Char.isDigit then
    some (ds.foldl (fun acc c => acc * 10 + (c.toNat - '0'.toNat)) 0)
  else none

/-- Python 2 `int(s)` (base 10): optional surrounding whitespace, optional
single sign, then one or more decimal digits; `none` models the `ValueError`
that any other input raises. -/
def pyInt (s : String) : Option Int :=
  let t := ((s.data.dropWhile isPySpace).reverse.dropWhile isPySpace).reverse
  match t with
  | '+' :: ds => (digitsToNat ds).map (fun n => (n : Int))
  | '-' :: ds => (digitsToNat ds).map (fun n => -(n : Int))
  | ds => (digitsToNat ds).map (fun n => (n : Int))

/-- `write_header` (lines 24-29): for each line of the header template, if
the line contains `####` write it with every occurrence of `####` replaced
by the class name, otherwise write it unchanged.  The returned list is the
sequence of strings written to the output file. -/
def write_header (header : List String) (class_name : String) : List String :=
  match header with
  | [] => []
  | line :: rest =>
    (if strContains line "####" then pyReplace line "####" class_name else line)
      :: write_header rest class_name

/-- One pass of the inner loop of `write_fields` (lines 33-37): scan the
field template and, for each line containing `field###`, write the line with
every occurrence of `###` replaced by the decimal form of the index `c`;
lines without `field###` are not written at all. -/
def write_fields_one (fieldT : List String) (c : Nat) : List String :=
  match fieldT with
  | [] => []
  | line :: rest =>
    if strContains line "field###" then
      pyReplace line "###" (toString c) :: write_fields_one rest c
    else
      write_fields_one rest c

/-- `write_fields` (lines 31-37): for `c in range(0, count)` re-read the
field template and emit its substituted matching lines.  A zero or negative
`count` makes the loop a no-op, exactly as Python's `range`. -/
def write_fields (fieldT : List String) (count : Int) : List String :=
  List.flatten ((List.range count.toNat).map (fun c => write_fields_one fieldT c))

/-- `write_footer` (lines 39-41): the footer file is read whole and written
verbatim, with no substitution. -/
def write_footer (footer : String) : List String :=
  [footer]

/-- Field-line substitution as the specification's words describe it, for
comparison with `write_fields_one`: only the numeric-suffix portion of the
token (the `###` directly after the literal `field` marker) is replaced by
the index, so the whole token `field###` becomes `field` followed by the
decimal index, and the rest of the line is left unchanged. -/
def spec_field_subst (line : String) (c : Nat) : String :=
  pyReplace line "field###" ("field" ++ toString c)

/-- The error value raised by Python's `getopt.getopt`. -/
structure GetoptError where
  msg : String
deriving DecidableEq

/-- `getopt.long_has_args`: decide whether the long option `opt` (given
without dashes and without any `=value` part) takes an argument, expanding a
unique prefix to the full option name. -/
def long_has_args (opt : String) (longopts : List String) :
    Except GetoptError (Bool × String) :=
  let possibilities := longopts.filter (fun o => opt.data.isPrefixOf o.data)
  if possibilities = [] then
    Except.error ⟨"option --" ++ opt ++ " not recognized"⟩
  else if possibilities.contains opt then
    Except.ok (false, opt)
  else if possibilities.contains (opt ++ "=") then
    Except.ok (true, opt)
  else if 1 < possibilities.length then
    Except.error ⟨"option --" ++ opt ++ " not a unique prefix"⟩
  else
    match possibilities with
    | [u] =>
      if u.data.getLast? = some '=' then
        Except.ok (true, ⟨u.data.dropLast⟩)
      else
        Except.ok (false, u)
    | _ => Except.error ⟨"option --" ++ opt ++ " not a unique prefix"⟩

/-- Split a character list at the first `=`, as `opt.index('=')` does in
`getopt.do_longs`; `none` when there is no `=`. -/
def splitAtFirstEq : List Char → Option (List Char × List Char)
  | [] => none
  | c :: t =>
    if c = '=' then some ([], t)
    else
      match splitAtFirstEq t with
      | none => none
      | some (a, b) => some (c :: a, b)

/-- `getopt.do_longs` for one `--opt` or `--opt=value` argument.  Returns
the produced `(option, value)` pair and whether the next command-line
argument was consumed as the option's value. -/
def do_longs (optFull : String) (longopts : List String) (nextArg : Option String) :
    Except GetoptError ((String × String) × Bool) :=
  let parts := splitAtFirstEq optFull.data
  let opt : String := match parts with | none => optFull | some (a, _) => ⟨a⟩
  let optarg : Option String := match parts with | none => none | some (_, b) => some ⟨b⟩
  match long_has_args opt longopts with
  | Except.error e => Except.error e
  | Except.ok (hasArg, opt2) =>
    if hasArg then
      match optarg with
      | some v => Except.ok (("--" ++ opt2, v), false)
      | none =>
        match nextArg with
        | none => Except.error ⟨"option --" ++ opt2 ++ " requires argument"⟩
        | some a => Except.ok (("--" ++ opt2, a), true)
    else
      match optarg with
      | some _ => Except.error ⟨"option --" ++ opt2 ++ " must not have an argument"⟩
      | none => Except.ok (("--" ++ opt2, ""), false)

/-- `getopt.short_has_arg`: look the character `c` up in the short-option
string; `true` when a `:` follows it there. -/
def short_has_arg (c : Char) : List Char → Except GetoptError Bool
  | [] => Except.error ⟨"option -" ++ String.mk [c] ++ " not recognized"⟩
  | s :: t =>
    if c = s ∧ s ≠ ':' then Except.ok (t.head? == some ':')
    else short_has_arg c t

/-- `getopt.do_shorts` for one `-abc...` argument (the dash already
stripped).  Returns the produced `(option, value)` pairs in order and
whether the next command-line argument was consumed as a value. -/
def do_shorts (shortopts : List Char) (nextArg : Option String) :
    List Char → Except GetoptError (List (String × String) × Bool)
  | [] => Except.ok ([], false)
  | c :: rest =>
    match short_has_arg c shortopts with
    | Except.error e => Except.error e
    | Except.ok true =>
      match rest with
      | [] =>
        match nextArg with
        | none => Except.error ⟨"option -" ++ String.mk [c] ++ " requires argument"⟩
        | some a => Except.ok ([(String.mk ['-', c], a)], true)
      | _ => Except.ok ([(String.mk ['-', c], String.mk rest)], false)
    | Except.ok false =>
      match do_shorts shortopts nextArg rest with
      | Except.error e => Except.error e
      | Except.ok (pairs, used) =>
        Except.ok ((String.mk ['-', c], "") :: pairs, used)

/-- The main loop of `getopt.getopt`: process leading arguments that look
like options, stop at the first non-option argument, at a lone `-`, or
after a `--` separator.  The fuel starts at the number of arguments and
every iteration consumes at least one argument and one unit of fuel, so the
fuel never runs out. -/
def getoptGo (shortopts : List Char) (longopts : List String) :
    Nat → List String → List (String × String) →
    Except GetoptError (List (String × String) × List String)
  | _, [], opts => Except.ok (opts, [])
  | 0, args, opts => Except.ok (opts, args)
  | fuel + 1, arg0 :: rest, opts =>
    if ¬ ("-".data.isPrefixOf arg0.data) ∨ arg0 = "-" then
      Except.ok (opts, arg0 :: rest)
    else if arg0 = "--" then
      Except.ok (opts, rest)
    else if "--".data.isPrefixOf arg0.data then
      match do_longs ⟨arg0.data.drop 2⟩ longopts rest.head? with
      | Except.error e => Except.error e
      | Except.ok (pair, used) =>
        getoptGo shortopts longopts fuel (if used then rest.tail else rest) (opts ++ [pair])
    else
      match do_shorts shortopts rest.head? (arg0.data.drop 1) with
      | Except.error e => Except.error e
      | Except.ok (pairs, used) =>
        getoptGo shortopts longopts fuel (if used then rest.tail else rest) (opts ++ pairs)

/-- Python's `getopt.getopt(args, shortopts, longopts)`: the parsed
`(option, value)` pairs in order, plus the trailing non-option arguments,
or the `GetoptError` that the call raises. -/
def pygetopt (args : List String) (shortopts : String) (longopts : List String) :
    Except GetoptError (List (String × String) × List String) :=
  getoptGo shortopts.data longopts args.length args []

/-- One observable side effect of a `run` invocation: a line printed to
standard output, a `sys.exit` with a status code, the output file being
opened with mode `w+` (created or truncated), a string written to it, the
file being closed, or the `ValueError` that `int()` raises on a bad size. -/
inductive Event where
  | print (s : String)
  | exit (code : Nat)
  | openW (name : String)
  | write (s : String)
  | close
  | valueError
deriving DecidableEq

/-- The usage line printed by `print_help` (line 44). -/
def help_line : String :=
  "TestClassGenerator.py -n <class_name> -s <object_size>"

/-- The `for opt, arg in opts` loop of `run` (lines 55-62): `-h` prints the
usage and exits with status 0; `-n`/`--cname` sets the class name;
`-s`/`--osize` parses the size with `int()`, whose failure aborts the run
with a `ValueError`.  Returns either the events of an aborted run or the
final `(class_name, object_size)` pair. -/
def processOpts : List (String × String) → String → Int →
    List Event ⊕ String × Int
  | [], cn, os => Sum.inr (cn, os)
  | (opt, arg) :: rest, cn, os =>
    if opt = "-h" then Sum.inl [Event.print help_line, Event.exit 0]
    else if opt = "-n" ∨ opt = "--cname" then processOpts rest arg os
    else if opt = "-s" ∨ opt = "--osize" then
      match pyInt arg with
      | some n => processOpts rest cn n
      | none => Sum.inl [Event.valueError]
    else processOpts rest cn os

/-- Lines 64-73 of `run`: open `<class_name>.java` with mode `w+`, write the
substituted header, write `object_size / 8` (Python 2 floor division, here
`Int.fdiv`) passes over the field template, write the footer verbatim, and
close the file. -/
def generate (class_name : String) (object_size : Int)
    (header fieldT : List String) (footer : String) : List Event :=
  let file_name := class_name ++ ".java"
  let fields_count := Int.fdiv object_size 8
  Event.openW file_name ::
    ((write_header header class_name).map Event.write ++
     (write_fields fieldT fields_count).map Event.write ++
     (write_footer footer).map Event.write ++
     [Event.close])

/-- `run(argv)` (lines 46-73) as the trace of its side effects, with the
three template files' contents as explicit inputs.  A `GetoptError` prints
the usage and exits with status 1; otherwise the options are processed in
order starting from `class_name = ''` and `object_size = 0`, and if no
option ends the run early the output file is generated. -/
def run (argv : List String) (header fieldT : List String) (footer : String) :
    List Event :=
  match pygetopt argv "hn:s:" ["cname=", "osize="] with
  | Except.error _ => [Event.print help_line, Event.exit 1]
  | Except.ok (opts, _) =>
    match processOpts opts "" 0 with
    | Sum.inl evs => evs
    | Sum.inr (class_name, object_size) =>
      generate class_name object_size header fieldT footer

/-- One pass over the field template writes exactly as many lines as the
template has lines containing the token `field###`. -/
theorem length_write_fields_one (fieldT : List String) (c : Nat) :
    (write_fields_one fieldT c).length =
      fieldT.countP (fun l => strContains l "field###") := by
  induction fieldT with
  | nil => rfl
  | cons line rest ih =>
    unfold write_fields_one
    by_cases h : strContains line "field###"
    · simp [h, ih, List.countP_cons]
    · simp [h, ih, List.countP_cons]

/-- When exactly one template line bears the token, the field emitter writes
one line per loop iteration. -/
theorem length_write_fields (fieldT : List String) (count : Int)
    (h1 : fieldT.countP (fun l => strContains l "field###") = 1) :
    (write_fields fieldT count).length = count.toNat := by
  unfold write_fields
  induction count.toNat with
  | zero => rfl
  | succ k ih =>
    rw [List.range_succ, List.map_append, List.flatten_append,
      List.length_append, ih]
    simp [length_write_fields_one, h1]

/-- A Python 2 floor division `n / 8` yields a nonpositive count, hence an
empty `range`, whenever `n < 8`. -/
theorem fdiv_eight_toNat_zero (n : Int) (h : n < 8) : (Int.fdiv n 8).toNat = 0 := by
  cases n with
  | ofNat m =>
    cases m with
    | zero => rfl
    | succ k =>
      rw [show (8 : Int) = Int.ofNat 8 from rfl] at h
      have hk : k + 1 < 8 := Int.ofNat_lt.mp h
      show (Int.ofNat ((k + 1) / 8)).toNat = 0
      rw [Nat.div_eq_of_lt hk]
      rfl
  | negSucc m => rfl

/-- Option-loop step for a `-n` option: it only rebinds the class name. -/
theorem processOpts_n_cons (a : String) (rest : List (String × String))
    (cn : String) (os : Int) :
    processOpts (("-n", a) :: rest) cn os = processOpts rest a os := rfl

/-- Option-loop step for a `-s` option: the value is parsed with `int()`,
and a parse failure ends the run with a `ValueError` and nothing else. -/
theorem processOpts_s_cons (s : String) (rest : List (String × String))
    (cn : String) (os : Int) :
    processOpts (("-s", s) :: rest) cn os =
      (match pyInt s with
       | some k => processOpts rest cn k
       | none => Sum.inl [Event.valueError]) := rfl

/-- `run` on `-n <cn> -s <s>`: `getopt` succeeds with exactly those two
options and the run continues into the option loop. -/
theorem run_ns_reduce (cn s : String) (header fieldT : List String) (footer : String) :
    run ["-n", cn, "-s", s] header fieldT footer =
      (match processOpts [("-n", cn), ("-s", s)] "" 0 with
       | Sum.inl evs => evs
       | Sum.inr (c, o) => generate c o header fieldT footer) := rfl

/-- `run` on `-s <s>` alone: `getopt` succeeds with the single size option. -/
theorem run_s_reduce (s : String) (header fieldT : List String) (footer : String) :
    run ["-s", s] header fieldT footer =
      (match processOpts [("-s", s)] "" 0 with
       | Sum.inl evs => evs
       | Sum.inr (c, o) => generate c o header fieldT footer) := rfl

/-- A `run` whose size string parses generates the output file. -/
theorem run_ns_generates (cn s : String) (n : Int) (header fieldT : List String)
    (footer : String) (hs : pyInt s = some n) :
    run ["-n", cn, "-s", s] header fieldT footer =
      generate cn n header fieldT footer := by
  rw [run_ns_reduce, processOpts_n_cons, processOpts_s_cons, hs]
  rfl

/-- C1: for every object size `object_size ≥ 0` (and any class name, which
the field emitter never uses), when the field template bears the token
`field###` on exactly one line, the number of field lines emitted equals
`floor(object_size / 8)`, the Python 2 result of `object_size / 8`. -/
theorem emitted_field_count_eq_size_div_eight (fieldT : List String)
    (object_size : Int) (h0 : 0 ≤ object_size)
    (h1 : fieldT.countP (fun l => strContains l "field###") = 1) :
    (write_fields fieldT (Int.fdiv object_size 8)).length = object_size.toNat / 8 := by
  rw [length_write_fields fieldT _ h1]
  obtain ⟨m, rfl⟩ := Int.eq_ofNat_of_zero_le h0
  cases m with
  | zero => rfl
  | succ k => rfl

/-- Witness for C1 at the spec's own scenario: object size 256 with a
one-line field template yields exactly 32 emitted field lines. -/
theorem emitted_field_count_eq_size_div_eight_witness :
    0 ≤ (256 : Int) ∧
    (["  private long field###;"].countP (fun l => strContains l "field###") = 1) ∧
    (write_fields ["  private long field###;"] (Int.fdiv 256 8)).length =
      (256 : Int).toNat / 8 :=
  ⟨by decide, by decide,
    emitted_field_count_eq_size_div_eight ["  private long field###;"] 256
      (by decide) (by decide)⟩

/-- C2: for every invocation `-n <cn> -s <s>` whose size string parses to
the integer `n`, the run opens (creating or truncating) the file named
`<cn>.java`, then writes exactly the substituted header lines in order, then
`N = floor(n / 8)` substituted passes over the field template indexed
`0, 1, ..., N-1` in increasing order, then the footer verbatim as one write,
and finally closes the file. -/
theorem output_is_header_fields_footer (cn s : String) (n : Int)
    (header fieldT : List String) (footer : String) (hs : pyInt s = some n) :
    run ["-n", cn, "-s", s] header fieldT footer =
      Event.openW (cn ++ ".java") ::
        ((write_header header cn).map Event.write ++
         (List.flatten ((List.range (Int.fdiv n 8).toNat).map
            (fun c => write_fields_one fieldT c))).map Event.write ++
         [Event.write footer, Event.close]) := by
  rw [run_ns_generates cn s n header fieldT footer hs]
  simp [generate, write_fields, write_footer]

/-- Witness for C2 at the spec's scenario `-n LargeObj -s 256`. -/
theorem output_is_header_fields_footer_witness :
    pyInt "256" = some 256 ∧
    run ["-n", "LargeObj", "-s", "256"]
        ["public class #### \x7b"] ["  private long field###;"] "\x7d" =
      Event.openW ("LargeObj" ++ ".java") ::
        ((write_header ["public class #### \x7b"] "LargeObj").map Event.write ++
         (List.flatten ((List.range (Int.fdiv 256 8).toNat).map
            (fun c => write_fields_one ["  private long field###;"] c))).map Event.write ++
         [Event.write "\x7d", Event.close]) :=
  ⟨rfl, output_is_header_fields_footer "LargeObj" "256" 256
    ["public class #### \x7b"] ["  private long field###;"] "\x7d" rfl⟩

/-- C3 counterexample: the code's field substitution replaces every
occurrence of `###` on a matching line, not only the numeric suffix of the
`field###` token.  On the line `field### ###` with index 0 the code emits
`field0 0`, while replacing only the token's suffix would leave `field0 ###`. -/
theorem field_subst_not_suffix_only :
    write_fields_one ["field### ###"] 0 ≠ [spec_field_subst "field### ###" 0] ∧
    write_fields_one ["field### ###"] 0 = ["field0 0"] ∧
    spec_field_subst "field### ###" 0 = "field0 ###" := by
  refine ⟨?_, by decide, by decide⟩
  decide

/-- C3 as amended: for every field index `c` and every field-template line
containing the token `field###`, the emitted line is that line with every
occurrence of `###` (the token's numeric suffix and any other occurrence of
`###` on the line) replaced by `c` formatted as an unpadded decimal integer;
characters outside those occurrences are unchanged. -/
theorem field_line_replaces_every_hash_run (line : String) (c : Nat)
    (h : strContains line "field###" = true) :
    write_fields_one [line] c = [pyReplace line "###" (toString c)] := by
  simp [write_fields_one, h]

/-- Witness for the amended C3 on a realistic template line at index 5. -/
theorem field_line_replaces_every_hash_run_witness :
    strContains "  private long field###;" "field###" = true ∧
    write_fields_one ["  private long field###;"] 5 =
      [pyReplace "  private long field###;" "###" (toString 5)] :=
  ⟨by decide, field_line_replaces_every_hash_run "  private long field###;" 5 (by decide)⟩

/-- C4 counterexample: invoking the program with the long form `--help`
does not exit with status 0; `getopt` rejects the unknown long option, so
the run prints the usage message and exits with status 1 (and never opens
an output file). -/
theorem long_help_flag_exits_with_one :
    run ["--help"] [] [] "" = [Event.print help_line, Event.exit 1] ∧
    run ["--help"] [] [] "" ≠ [Event.print help_line, Event.exit 0] := by
  constructor
  · rfl
  · decide

/-- C4 as amended: only the short form `-h` of the help flag prints the
usage message and terminates with exit status 0 without creating an output
file; the long form `--help` is not a recognized option, so it prints the
usage message and terminates with exit status 1, also without creating an
output file. -/
theorem help_flag_short_zero_long_one (header fieldT : List String) (footer : String) :
    run ["-h"] header fieldT footer = [Event.print help_line, Event.exit 0] ∧
    run ["--help"] header fieldT footer = [Event.print help_line, Event.exit 1] :=
  ⟨rfl, rfl⟩

/-- C5: for every field index, field-template lines without the token
`field###` are silently skipped (an all-nontoken template emits nothing),
unlike the header emitter, which writes one output line for every header
template line. -/
theorem nontoken_field_lines_skipped (fieldT : List String) (c : Nat)
    (header : List String) (cn : String)
    (h : ∀ l ∈ fieldT, strContains l "field###" = false) :
    write_fields_one fieldT c = [] ∧
    (write_header header cn).length = header.length := by
  constructor
  · induction fieldT with
    | nil => rfl
    | cons line rest ih =>
      have hl : strContains line "field###" = false := h line (by simp)
      have hr : ∀ l ∈ rest, strContains l "field###" = false := by
        intro l hlr
        exact h l (by simp [hlr])
      simp [write_fields_one, hl, ih hr]
  · induction header with
    | nil => rfl
    | cons line rest ih =>
      simp [write_header, ih]

/-- Witness for C5: a tokenless field template emits nothing at index 3,
while a two-line header is copied in full. -/
theorem nontoken_field_lines_skipped_witness :
    (∀ l ∈ (["// no token", "long x;"] : List String),
        strContains l "field###" = false) ∧
    (write_fields_one ["// no token", "long x;"] 3 = [] ∧
     (write_header ["public class #### \x7b", "  int x;"] "A").length =
       (["public class #### \x7b", "  int x;"] : List String).length) :=
  ⟨by decide,
    nontoken_field_lines_skipped ["// no token", "long x;"] 3
      ["public class #### \x7b", "  int x;"] "A" (by decide)⟩

/-- C6: the header emitter writes one line per header-template line, in
order: a line containing the token `####` is written with every occurrence
of the token replaced by the class name, and any other line is written
unchanged. -/
theorem header_lines_copied_with_substitution (header : List String) (cn : String) :
    write_header header cn =
      header.map (fun line =>
        if strContains line "####" then pyReplace line "####" cn else line) := by
  induction header with
  | nil => rfl
  | cons line rest ih =>
    simp [write_header, ih]

/-- C7: when the object-size argument does not parse as a decimal integer,
the run's whole trace is the unhandled `ValueError`: the size is parsed in
the option loop, before `open(file_name, 'w+')` is reached, so no output
file is opened, written, or created. -/
theorem bad_size_aborts_before_open (cn s : String)
    (header fieldT : List String) (footer : String) (hs : pyInt s = none) :
    run ["-n", cn, "-s", s] header fieldT footer = [Event.valueError] ∧
    ∀ name, Event.openW name ∉ run ["-n", cn, "-s", s] header fieldT footer := by
  have htrace : run ["-n", cn, "-s", s] header fieldT footer = [Event.valueError] := by
    rw [run_ns_reduce, processOpts_n_cons, processOpts_s_cons, hs]
  refine ⟨htrace, ?_⟩
  intro name
  rw [htrace]
  simp

/-- Witness for C7 at the non-numeric size string `12abc`. -/
theorem bad_size_aborts_before_open_witness :
    pyInt "12abc" = none ∧
    (run ["-n", "A", "-s", "12abc"] ["class ####"] ["long field###;"] "\x7d" =
        [Event.valueError] ∧
     ∀ name, Event.openW name ∉
        run ["-n", "A", "-s", "12abc"] ["class ####"] ["long field###;"] "\x7d") :=
  ⟨rfl, bad_size_aborts_before_open "A" "12abc" ["class ####"] ["long field###;"] "\x7d" rfl⟩

/-- C8: on any argument list that `getopt` rejects (an unrecognized flag
such as `-x`, or a malformed flag list), the run prints the usage message,
exits with status 1, and never opens an output file. -/
theorem bad_flag_prints_usage_exits_one (argv : List String)
    (header fieldT : List String) (footer : String) (e : GetoptError)
    (hs : pygetopt argv "hn:s:" ["cname=", "osize="] = Except.error e) :
    run argv header fieldT footer = [Event.print help_line, Event.exit 1] ∧
    ∀ name, Event.openW name ∉ run argv header fieldT footer := by
  have htrace : run argv header fieldT footer =
      [Event.print help_line, Event.exit 1] := by
    unfold run
    rw [hs]
  refine ⟨htrace, ?_⟩
  intro name
  rw [htrace]
  simp

/-- Witness for C8 at the spec's own scenario, the invalid flag `-x`. -/
theorem bad_flag_prints_usage_exits_one_witness :
    pygetopt ["-x"] "hn:s:" ["cname=", "osize="] =
      Except.error ⟨"option -x not recognized"⟩ ∧
    (run ["-x"] ["class ####"] ["long field###;"] "\x7d" =
        [Event.print help_line, Event.exit 1] ∧
     ∀ name, Event.openW name ∉ run ["-x"] ["class ####"] ["long field###;"] "\x7d") :=
  ⟨rfl, bad_flag_prints_usage_exits_one ["-x"] ["class ####"] ["long field###;"] "\x7d"
    ⟨"option -x not recognized"⟩ rfl⟩

/-- C9: for every object size below 8, negative sizes included, no range
validation happens: the run still succeeds, the field loop is a no-op, and
the generated file holds exactly the substituted header followed by the
footer, with no field lines. -/
theorem small_size_emits_header_footer_only (cn s : String) (n : Int)
    (header fieldT : List String) (footer : String)
    (hs : pyInt s = some n) (hn : n < 8) :
    write_fields fieldT (Int.fdiv n 8) = [] ∧
    run ["-n", cn, "-s", s] header fieldT footer =
      Event.openW (cn ++ ".java") ::
        ((write_header header cn).map Event.write ++
         [Event.write footer, Event.close]) := by
  have hf : write_fields fieldT (Int.fdiv n 8) = [] := by
    unfold write_fields
    rw [fdiv_eight_toNat_zero n hn]
    rfl
  refine ⟨hf, ?_⟩
  rw [run_ns_generates cn s n header fieldT footer hs]
  simp [generate, hf, write_footer]

/-- Witness for C9 at the negative size `-9` (field count `-9 / 8 = -2` in
Python 2, so the loop runs zero times). -/
theorem small_size_emits_header_footer_only_witness :
    pyInt "-9" = some (-9) ∧ (-9 : Int) < 8 ∧
    (write_fields ["long field###;"] (Int.fdiv (-9) 8) = [] ∧
     run ["-n", "A", "-s", "-9"] ["class ####"] ["long field###;"] "\x7d" =
       Event.openW ("A" ++ ".java") ::
         ((write_header ["class ####"] "A").map Event.write ++
          [Event.write "\x7d", Event.close])) :=
  ⟨rfl, by decide,
    small_size_emits_header_footer_only "A" "-9" (-9)
      ["class ####"] ["long field###;"] "\x7d" rfl (by decide)⟩

/-- C10: when the class-name flag is omitted, the run does not fail: the
class name keeps its initial value `''`, the header placeholders are
replaced by the empty string, and the output file is named `.java` (the
extension alone). -/
theorem omitted_class_name_defaults_empty (s : String) (n : Int)
    (header fieldT : List String) (footer : String) (hs : pyInt s = some n) :
    run ["-s", s] header fieldT footer =
      Event.openW ".java" ::
        ((write_header header "").map Event.write ++
         (write_fields fieldT (Int.fdiv n 8)).map Event.write ++
         [Event.write footer, Event.close]) := by
  rw [run_s_reduce, processOpts_s_cons, hs]
  show generate "" n header fieldT footer = _
  simp [generate, write_footer]

/-- Witness for C10 at size 16: the output goes to `.java` and the header
token is replaced by the empty string. -/
theorem omitted_class_name_defaults_empty_witness :
    pyInt "16" = some 16 ∧
    run ["-s", "16"] ["class #### \x7b"] ["  long field###;"] "\x7d" =
      Event.openW ".java" ::
        ((write_header ["class #### \x7b"] "").map Event.write ++
         (write_fields ["  long field###;"] (Int.fdiv 16 8)).map Event.write ++
         [Event.write "\x7d", Event.close]) :=
  ⟨rfl, omitted_class_name_defaults_empty "16" 16 ["class #### \x7b"] ["  long field###;"] "\x7d" rfl⟩

end TCG
